import Mathlib

/-!
Verification development for the frame-graph / GPU-resource-lifecycle core of
the smaaDemo repository.  Each C++ function relevant to the checked properties
is shallowly embedded as an executable Lean definition; machine integers are
modelled as `Nat` with an explicit `% 2^32` wherever the C code computes in
`unsigned int` and wraparound is reachable.
-/

namespace NullRenderer

/-- `2^32`, the modulus of C `unsigned int` arithmetic. -/
def U32 : Nat := 4294967296

/-- The alignment constant of `RendererImpl::createEphemeralBuffer`
(NullRenderer.cpp line 62): `const unsigned int align = 8;`. -/
def align : Nat := 8

/-- `const unsigned int add = (1 << align) - 1;` (NullRenderer.cpp line 63).
Note the constant 8 is used as a shift amount, so this is 255. -/
def addend : Nat := (1 <<< align) - 1

/-- `(p + add) & mask` with `mask = ~add`, computed in 32-bit unsigned
arithmetic.  For a 32-bit value this equals clearing the low 8 bits of
`(p + 255) mod 2^32`, i.e. rounding down to a multiple of 256. -/
def alignPtr (p : Nat) : Nat := (p + addend) % U32 / 256 * 256

/-- Allocator state of the null renderer: the ring size fixed at construction
and the monotonically increasing write cursor (`ringBufPtr`), kept reduced
mod 2^32 as the C `unsigned int` member is. -/
structure RingState where
  ringBufSize : Nat
  ringBufPtr  : Nat
deriving Repr, DecidableEq

/-- `RendererImpl::createEphemeralBuffer` (NullRenderer.cpp lines 56-94),
restricted to its allocation arithmetic: returns the offset (`beginPtr`)
handed to the caller and the successor allocator state. -/
def createEphemeralBuffer (s : RingState) (size : Nat) : Nat × RingState :=
  let alignedPtr := alignPtr s.ringBufPtr
  let beginPtr   := alignedPtr % s.ringBufSize
  if s.ringBufSize ≤ (beginPtr + size) % U32 then
    -- we went past the end and have to go back to beginning
    let ringBufPtr2 := (s.ringBufPtr / s.ringBufSize + 1) * s.ringBufSize % U32
    let alignedPtr2 := alignPtr ringBufPtr2
    let beginPtr2   := alignedPtr2 % s.ringBufSize
    (beginPtr2, { s with ringBufPtr := (alignedPtr2 + size) % U32 })
  else
    (beginPtr, { s with ringBufPtr := (alignedPtr + size) % U32 })

/-- Offsets of a whole sequence of allocations made from one ring (all within
the same frame: the null renderer reclaims only at `presentFrame`). -/
def allocateAll (s : RingState) : List Nat → List Nat
  | [] => []
  | size :: rest =>
      let r := createEphemeralBuffer s size
      r.1 :: allocateAll r.2 rest

/-- Two byte ranges `[o1, o1+s1)` and `[o2, o2+s2)` are disjoint. -/
def rangesDisjoint (o1 s1 o2 s2 : Nat) : Prop :=
  o1 + s1 ≤ o2 ∨ o2 + s2 ≤ o1

instance (o1 s1 o2 s2 : Nat) : Decidable (rangesDisjoint o1 s1 o2 s2) := by
  unfold rangesDisjoint; infer_instance

end NullRenderer

namespace RenderGraph

/-- Logical image layouts (`Layout` enum of the renderer header, which is not
under src/; the set of enumerators is exactly the one used by
smaaDemo.cpp: Undefined, ShaderRead, TransferSrc, TransferDst,
ColorAttachment).  `Undefined` is taken as the value-initialized default, as
in the spec's glossary ordering. -/
inductive Layout
  | Undefined
  | ShaderRead
  | TransferSrc
  | TransferDst
  | ColorAttachment
deriving DecidableEq, Repr

/-- Per-attachment begin behavior (`PassBegin` enum of the renderer header):
don't-care, keep, clear. -/
inductive PassBegin
  | DontCare
  | Keep
  | Clear
deriving DecidableEq, Repr

/-- The C++ `Rendertargets` / `RenderPasses` enums are modelled as `Nat`,
with 0 standing for the `Invalid` enumerator. -/
abbrev RTId := Nat

/-- Render-pass identifiers, 0 = Invalid. -/
abbrev RPId := Nat

/-- `RenderGraph::PassDesc::RTInfo` (smaaDemo.cpp lines 3629-3633); the float
clear value is irrelevant to layout inference and omitted. -/
structure RTInfo where
  id        : RTId
  passBegin : PassBegin
deriving DecidableEq, Repr

/-- `RenderGraph::PassDesc` (smaaDemo.cpp lines 3569-3642): declared color
attachments in slot order, declared depth-stencil target, and the set of
read-only input rendertargets (iteration order of the C++ unordered_set is
irrelevant here: every member is assigned the same layout). -/
structure PassDesc where
  depthStencil       : RTId
  colorRTs           : List RTInfo
  inputRendertargets : List RTId
deriving DecidableEq, Repr

/-- Modelled from the spec: one color slot of the backend `RenderPassDesc`
(renderer header, not under src/).  Per §4.4 a backend render pass is created
"from a declarative attachment description"; build() fills slot `i` via
`rpDesc.color(i, fmt, pb, initial, final, clearValue)` and the debug dump
reads back `passBegin`, `initialLayout` and `finalLayout` per slot, so the
setter is a plain per-slot record write. -/
structure AttachmentDesc where
  format        : Nat
  passBegin     : PassBegin
  initialLayout : Layout
  finalLayout   : Layout
deriving DecidableEq, Repr

/-- Modelled from the spec: the backend `RenderPassDesc` (renderer header,
not under src/), reduced to the fields build() writes during layout
inference: the color slots and the depth-stencil format. -/
structure RenderPassDesc where
  colorRTs           : List AttachmentDesc
  depthStencilFormat : Nat
deriving DecidableEq, Repr

/-- `boost::variant<ExternalRT, InternalRT>` (smaaDemo.cpp line 3685):
a rendertarget is internal (owned, with a creation descriptor reduced to its
format) or external (format plus declared initial/final layouts). -/
inductive Rendertarget
  | internal (format : Nat)
  | external (format : Nat) (initialLayout finalLayout : Layout)
deriving DecidableEq, Repr

/-- `RenderGraph::getFormat` (smaaDemo.cpp lines 3792-3797). -/
def getFormat : Rendertarget → Nat
  | .internal f => f
  | .external f _ _ => f

/-- Resolve a rendertarget id in the graph's rendertarget map and take its
format; `rg.rendertargets.find` asserts presence, so absence (modelled by 0)
is a contract violation that cannot occur in a well-formed graph. -/
def getFormatOf (rts : List (RTId × Rendertarget)) (id : RTId) : Nat :=
  match rts.lookup id with
  | some rt => getFormat rt
  | none => 0

/-- `RenderGraph::RenderPass` (smaaDemo.cpp lines 3657-3663) reduced to the
fields the layout pass touches: the declarative `desc` and the backend
description `rpDesc` being filled in. -/
structure GraphRenderPass where
  desc   : PassDesc
  rpDesc : RenderPassDesc
deriving DecidableEq, Repr

/-- `boost::variant<Blit, RenderPasses, ResolveMSAA>` (smaaDemo.cpp line
3870): the linear operation list entries, blits and resolves carrying their
inferred final layout. -/
inductive Operation
  | opBlit (source dest : RTId) (finalLayout : Layout)
  | opRenderPass (id : RPId)
  | opResolveMSAA (source dest : RTId) (finalLayout : Layout)
deriving DecidableEq, Repr

/-- The `currentLayouts` map of build() (smaaDemo.cpp line 6090). -/
def LMap := RTId → Option Layout

/-- Map update, as done by `currentLayouts[k] = v`. -/
def LMap.insert (m : LMap) (k : RTId) (v : Layout) : LMap :=
  fun x => if x = k then some v else m x

/-- The empty map. -/
def LMap.empty : LMap := fun _ => none

/-- `currentLayouts[k]` read via `operator[]`: default-inserts a
value-initialized `Layout` (modelled `Undefined`) when the key is absent. -/
def LMap.bracket (m : LMap) (k : RTId) : Layout × LMap :=
  match m k with
  | some v => (v, m)
  | none => (Layout.Undefined, m.insert k Layout.Undefined)

/-- The color-attachment loop of `LayoutVisitor::operator()(RenderPasses&)`
(smaaDemo.cpp lines 6145-6176), iterating the declared color slots paired
with the backend slots they overwrite: a slot with Invalid id is left as is;
otherwise the inferred initial layout is Undefined unless the begin behavior
is Keep (then the constant ColorAttachment), the inferred final layout is the
currently-inferred layout of the target (defaulting to ColorAttachment when
the target never occurs later), and `currentLayouts[rtId]` is set to the
inferred initial layout. -/
def processColors (rts : List (RTId × Rendertarget)) :
    List (RTInfo × AttachmentDesc) → LMap → List AttachmentDesc × LMap
  | [], m => ([], m)
  | (c, old) :: rest, m =>
    if c.id = 0 then
      let r := processColors rts rest m
      (old :: r.1, r.2)
    else
      let fmt := getFormatOf rts c.id
      let initial := if c.passBegin = PassBegin.Keep then Layout.ColorAttachment
                     else Layout.Undefined
      let final := match m c.id with
                   | none => Layout.ColorAttachment
                   | some l => l
      let slot : AttachmentDesc :=
        { format := fmt, passBegin := c.passBegin
        , initialLayout := initial, finalLayout := final }
      let r := processColors rts rest (m.insert c.id initial)
      (slot :: r.1, r.2)

/-- The input-rendertarget loop of the visitor (smaaDemo.cpp lines
6179-6181): marks every declared input as requiring ShaderRead. -/
def markInputs : List RTId → LMap → LMap
  | [], m => m
  | r :: rest, m => markInputs rest (m.insert r Layout.ShaderRead)

/-- One step of build()'s `LayoutVisitor` (smaaDemo.cpp lines 6105-6188) on a
single operation: blit/resolve record the destination's current layout as
their final layout and require the source as TransferSrc; a render pass
fills its backend description as in `processColors` and then marks its
inputs. -/
def layoutVisit (rts : List (RTId × Rendertarget)) (passes : RPId → GraphRenderPass)
    (m : LMap) : Operation → Operation × (RPId → GraphRenderPass) × LMap
  | .opBlit src dst _ =>
      let r := m.bracket dst
      (.opBlit src dst r.1, passes, r.2.insert src Layout.TransferSrc)
  | .opResolveMSAA src dst _ =>
      let r := m.bracket dst
      (.opResolveMSAA src dst r.1, passes, r.2.insert src Layout.TransferSrc)
  | .opRenderPass id =>
      let rp := passes id
      let dsFormat := if rp.desc.depthStencil ≠ 0 then getFormatOf rts rp.desc.depthStencil
                      else rp.rpDesc.depthStencilFormat
      let r := processColors rts (rp.desc.colorRTs.zip rp.rpDesc.colorRTs) m
      let m2 := markInputs rp.desc.inputRendertargets r.2
      let rp2 : GraphRenderPass :=
        { rp with rpDesc := { colorRTs := r.1, depthStencilFormat := dsFormat } }
      (.opRenderPass id, fun x => if x = id then rp2 else passes x, m2)

/-- The single backward pass of build() over the operation list (smaaDemo.cpp
lines 6190-6193, `operations.rbegin()` to `rend()`): the tail of the list is
processed first, then the head, and the rewritten list is returned in
original order. -/
def layoutBackward (rts : List (RTId × Rendertarget)) (passes : RPId → GraphRenderPass)
    (m : LMap) : List Operation → List Operation × (RPId → GraphRenderPass) × LMap
  | [] => ([], passes, m)
  | op :: rest =>
      let r := layoutBackward rts passes m rest
      let s := layoutVisit rts r.2.1 r.2.2 op
      (s.1 :: r.1, s.2)

/-- The seeding of `currentLayouts` (smaaDemo.cpp lines 6092-6103): the
present target is required as TransferSrc, then every external rendertarget
is required as its declared final layout (in map order; later writes win,
matching the C++ loop following the finalTarget write). -/
def seedLayouts (finalTarget : RTId) (rts : List (RTId × Rendertarget)) : LMap :=
  rts.foldl
    (fun m p =>
      match p.2 with
      | .external _ _ fl => m.insert p.1 fl
      | .internal _ => m)
    (LMap.empty.insert finalTarget Layout.TransferSrc)

/-- The layout-inference stage of `RenderGraph::build` (smaaDemo.cpp lines
6088-6195): seed, then one backward pass over the operations. -/
def buildLayouts (finalTarget : RTId) (rts : List (RTId × Rendertarget))
    (passes : RPId → GraphRenderPass) (ops : List Operation) :
    List Operation × (RPId → GraphRenderPass) × LMap :=
  layoutBackward rts passes (seedLayouts finalTarget rts) ops

/-- A fresh, not-yet-filled backend attachment slot (value-initialized). -/
def emptyAttachment : AttachmentDesc :=
  { format := 0, passBegin := PassBegin.DontCare
  , initialLayout := Layout.Undefined, finalLayout := Layout.Undefined }

/-- A graph render pass writing one color attachment, with given begin
behavior and inputs, before build() fills its backend description. -/
def mkPass (target : RTId) (pb : PassBegin) (inputs : List RTId) : GraphRenderPass :=
  { desc := { depthStencil := 0
            , colorRTs := [{ id := target, passBegin := pb }]
            , inputRendertargets := inputs }
  , rpDesc := { colorRTs := [emptyAttachment], depthStencilFormat := 0 } }

end RenderGraph

section GraphExamples

open RenderGraph

/-- The C1 example graph: A = 1, B = 2 internal targets of format 5; pass P1
(= 1) writes A with Clear; pass P2 (= 2) reads A and writes B with Clear;
B is the present target. -/
def c1Passes : RPId → GraphRenderPass :=
  fun id => if id = 1 then mkPass 1 PassBegin.Clear []
            else if id = 2 then mkPass 2 PassBegin.Clear [1]
            else mkPass 0 PassBegin.DontCare []

/-- The rendertargets of the C1 example graph. -/
def c1RTs : List (RTId × Rendertarget) := [(1, .internal 5), (2, .internal 5)]

/-- The operation list of the C1 example graph: P1 then P2. -/
def c1Ops : List Operation := [.opRenderPass 1, .opRenderPass 2]

end GraphExamples

/-- The C2 counterexample graph: target T = 1 written by pass P = 1 with
begin = Keep; pass Q = 2 reads T as input and writes the present target
U = 2 with Clear.  When the backward pass reaches P, the currently-inferred
layout of T is ShaderRead (required by Q's input read). -/
def c2Passes : RenderGraph.RPId → RenderGraph.GraphRenderPass :=
  fun id => if id = 1 then RenderGraph.mkPass 1 RenderGraph.PassBegin.Keep []
            else if id = 2 then RenderGraph.mkPass 2 RenderGraph.PassBegin.Clear [1]
            else RenderGraph.mkPass 0 RenderGraph.PassBegin.DontCare []

/-- Rendertargets of the C2 counterexample graph. -/
def c2RTs : List (RenderGraph.RTId × RenderGraph.Rendertarget) :=
  [(1, .internal 5), (2, .internal 5)]

/-- Operations of the C2 counterexample graph. -/
def c2Ops : List RenderGraph.Operation := [.opRenderPass 1, .opRenderPass 2]

/-! Generic association-list store, the shape shared by the repository's
`ResourceContainer` uses (`buffers`, `descriptors`, pipeline cache): lookup
finds the first entry with the key, removal drops the key's entries. -/

/-- First value stored under a key. -/
def assocFind {κ α : Type} [DecidableEq κ] : List (κ × α) → κ → Option α
  | [], _ => none
  | p :: ps, k => if p.1 = k then some p.2 else assocFind ps k

/-- Remove every entry stored under a key (containers keep keys unique, so
this is the single `remove` of the C++ `ResourceContainer`). -/
def assocRemove {κ α : Type} [DecidableEq κ] : List (κ × α) → κ → List (κ × α)
  | [], _ => []
  | p :: ps, k => if p.1 = k then assocRemove ps k else p :: assocRemove ps k

namespace GraphReset

open RenderGraph

/-- `RenderGraph::State` (smaaDemo.cpp lines 3649-3654). -/
inductive GState
  | Invalid
  | Building
  | Ready
  | Rendering
deriving DecidableEq, Repr

/-- A graph render pass as `reset` sees it: the backend render-pass handle and
framebuffer handle filled in by build() (0 = null handle). -/
structure BuiltPass where
  handle : Nat
  fb     : Nat
deriving DecidableEq, Repr

/-- A graph rendertarget as `reset` sees it: internal with its backend
handle, or external (not owned, never destroyed by the graph). -/
inductive ResetRT
  | internal (handle : Nat)
  | external
deriving DecidableEq, Repr

/-- The backend's live-object sets, as affected by the graph's delete calls,
plus whether `waitForDeviceIdle` has completed. -/
structure Backend where
  livePipelines     : List Nat
  liveRenderPasses  : List Nat
  liveFramebuffers  : List Nat
  liveRenderTargets : List Nat
  deviceIdled       : Bool
deriving DecidableEq, Repr

/-- The `RenderGraph` members `reset` touches. -/
structure Graph where
  state                       : GState
  pipelines                   : List Nat
  rendertargets               : List (RTId × ResetRT)
  renderPasses                : List (RPId × BuiltPass)
  operationCount              : Nat
  hasExternalRTs              : Bool
  renderpassesWithExternalRTs : List RPId
deriving DecidableEq, Repr

/-- `glDelete`-style removal from a live-object set. -/
def deleteObj (l : List Nat) (h : Nat) : List Nat := l.filter (· ≠ h)

/-- `RenderGraph::reset` (smaaDemo.cpp lines 5907-5954), statement for
statement in source order.  Note the source clears `renderPasses` at line
5911, before the loop at lines 5935-5946 that would call
`deleteRenderPass`/`deleteFramebuffer`, so that loop iterates an empty map.
The trailing `while (!renderer.waitForDeviceIdle()) processEvents();` is
modelled as the wait completing (it retries, pumping events, until it
does). -/
def reset (g : Graph) (b : Backend) : Graph × Backend :=
  -- state = State::Building;
  let g1 : Graph := { g with state := GState.Building }
  -- renderPasses.clear(); renderpassesWithExternalRTs.clear(); hasExternalRTs = false;
  let g2 : Graph := { g1 with renderPasses := []
                            , renderpassesWithExternalRTs := []
                            , hasExternalRTs := false }
  -- for (auto &p : pipelines) renderer.deletePipeline(p.handle); pipelines.clear();
  let b1 : Backend :=
    g2.pipelines.foldl (fun b h => { b with livePipelines := deleteObj b.livePipelines h }) b
  let g3 : Graph := { g2 with pipelines := [] }
  -- for (auto &rt : rendertargets) delete internal handles; rendertargets.clear();
  let b2 : Backend :=
    g3.rendertargets.foldl
      (fun b p =>
        match p.2 with
        | .internal h => { b with liveRenderTargets := deleteObj b.liveRenderTargets h }
        | .external => b)
      b1
  let g4 : Graph := { g3 with rendertargets := [] }
  -- for (auto &p : renderPasses) delete handle and fb -- renderPasses is empty here
  let b3 : Backend :=
    g4.renderPasses.foldl
      (fun b p =>
        let b' := if p.2.handle ≠ 0
                  then { b with liveRenderPasses := deleteObj b.liveRenderPasses p.2.handle }
                  else b
        if p.2.fb ≠ 0
        then { b' with liveFramebuffers := deleteObj b'.liveFramebuffers p.2.fb }
        else b')
      b2
  let g5 : Graph := { g4 with renderPasses := [] }
  -- operations.clear();
  let g6 : Graph := { g5 with operationCount := 0 }
  -- while (!renderer.waitForDeviceIdle()) processEvents();
  (g6, { b3 with deviceIdled := true })

end GraphReset

namespace GLRenderer

/-- `BufferType` of the renderer interface. -/
inductive BufferType
  | Invalid
  | Vertex
  | Index
  | Uniform
  | Storage
  | Everything
deriving DecidableEq, Repr, Inhabited

/-- The OpenGL backend's `Buffer` (renderer header; field set as used by
OpenGLRenderer.cpp): GL buffer name (0 = none), whether the storage is a
sub-range of the shared ring, offset, size, logical type. -/
structure Buffer where
  buffer          : Nat
  ringBufferAlloc : Bool
  offset          : Nat
  size            : Nat
  type            : BufferType
deriving DecidableEq, Repr, Inhabited

/-- One in-flight frame slot (renderer header, fields as used by
OpenGLRenderer.cpp): fence present, outstanding flag, the ephemeral buffer
handles the frame allocated, the ring cursor at submission and the frame
number. -/
structure Frame where
  fence            : Bool
  outstanding      : Bool
  ephemeralBuffers : List Nat
  usedRingBufPtr   : Nat
  lastFrameNum     : Nat
deriving DecidableEq, Repr, Inhabited

/-- The `RendererImpl` members touched by `waitForFrame` and
`recreateRingBuffer`.  `glDeletedBuffers` logs every `glDeleteBuffers` call
issued to the backend; `nextBufferHandle` models the container handing out a
fresh handle on `add` and `nextGLBuffer` models `glCreateBuffers` handing out
a fresh nonzero name. -/
structure RState where
  buffers              : List (Nat × Buffer)
  nextBufferHandle     : Nat
  frames               : List Frame
  glDeletedBuffers     : List Nat
  nextGLBuffer         : Nat
  ringBuffer           : Nat
  ringBufSize          : Nat
  ringBufPtr           : Nat
  currentFrameIdx      : Nat
  lastSyncedFrame      : Nat
  lastSyncedRingBufPtr : Nat
deriving DecidableEq, Repr

/-- The reclamation loop of `waitForFrame` (OpenGLRenderer.cpp lines
1934-1951): for each ephemeral buffer handle of the frame, a ring-allocated
buffer is marked dead with no backend delete, an owned buffer's GL name is
deleted via `glDeleteBuffers`; either way the handle is removed from the
container.  `buffers.get` asserts the handle is live, so an absent handle is
a contract violation (modelled as removal with no delete). -/
def reclaimBuffers : List Nat → List (Nat × Buffer) → List Nat →
    List (Nat × Buffer) × List Nat
  | [], store, log => (store, log)
  | h :: hs, store, log =>
    match assocFind store h with
    | some b =>
        let log2 := if b.ringBufferAlloc then log else log ++ [b.buffer]
        reclaimBuffers hs (assocRemove store h) log2
    | none => reclaimBuffers hs (assocRemove store h) log

/-- The four possible results of `glClientWaitSync` as switched on by
`waitForFrame` (OpenGLRenderer.cpp lines 1915-1929). -/
inductive WaitResult
  | alreadySignaled
  | conditionSatisfied
  | timeoutExpired
  | waitFailed
deriving DecidableEq, Repr

/-- `RendererImpl::waitForFrame` (OpenGLRenderer.cpp lines 1907-1958),
parametrized by the fence-wait result.  Timeout returns false with nothing
changed; an unexpected wait result throws (`Except.error`); a signaled fence
is deleted (`fence := false`), the frame's ephemeral buffers are reclaimed,
the list cleared, the frame marked not outstanding and the sync watermarks
advanced. -/
def waitForFrame (s : RState) (frameIdx : Nat) (res : WaitResult) :
    Except Unit (Bool × RState) :=
  match res with
  | .timeoutExpired => .ok (false, s)
  | .waitFailed => .error ()
  | _ =>
    let frame := s.frames.getD frameIdx default
    let r := reclaimBuffers frame.ephemeralBuffers s.buffers s.glDeletedBuffers
    let frame2 : Frame := { frame with fence := false, ephemeralBuffers := []
                                     , outstanding := false }
    .ok (true,
      { s with buffers := r.1
             , glDeletedBuffers := r.2
             , frames := s.frames.set frameIdx frame2
             , lastSyncedFrame := max s.lastSyncedFrame frame.lastFrameNum
             , lastSyncedRingBufPtr := max s.lastSyncedRingBufPtr frame.usedRingBufPtr })

/-- True exactly when the call returned instead of throwing. -/
def returnsNormally (r : Except Unit (Bool × RState)) : Bool :=
  match r with
  | .ok _ => true
  | .error _ => false

/-- Append a handle to the ephemeral-buffer list of frame `idx`
(`frames.at(currentFrameIdx).ephemeralBuffers.push_back(...)`). -/
def pushFrameBuffer (frames : List Frame) (idx : Nat) (h : Nat) : List Frame :=
  let f := frames.getD idx default
  frames.set idx { f with ephemeralBuffers := f.ephemeralBuffers ++ [h] }

/-- `RendererImpl::recreateRingBuffer` (OpenGLRenderer.cpp lines 659-722).
If a ring exists it is retired: a fresh container entry takes ownership of
the old GL buffer (`ringBufferAlloc = false`, offset 0, the old size, type
Everything), the handle is appended to the current frame's ephemeral list,
and ring size and cursor are zeroed; no `glDeleteBuffers` is issued.  Then a
fresh GL buffer of the new size becomes the ring.  (The persistent-mapping
unmap/remap is host-pointer bookkeeping with no object lifetime effect and
is omitted.) -/
def recreateRingBuffer (s : RState) (newSize : Nat) : RState :=
  let s1 : RState :=
    if s.ringBuffer ≠ 0 then
      let h := s.nextBufferHandle
      let buf : Buffer := { buffer := s.ringBuffer, ringBufferAlloc := false
                          , offset := 0, size := s.ringBufSize
                          , type := BufferType.Everything }
      { s with buffers := s.buffers ++ [(h, buf)]
             , nextBufferHandle := h + 1
             , frames := pushFrameBuffer s.frames s.currentFrameIdx h
             , ringBuffer := 0
             , ringBufSize := 0
             , ringBufPtr := 0 }
    else s
  { s1 with ringBuffer := s1.nextGLBuffer
          , nextGLBuffer := s1.nextGLBuffer + 1
          , ringBufSize := newSize }

/-- The `glDeleteBuffers` names the reclamation of a given handle list will
log: nothing for a ring-allocated buffer, the GL name for an owned one. -/
def deletionsOf (store : List (Nat × Buffer)) : List Nat → List Nat
  | [] => []
  | h :: hs =>
    match assocFind store h with
    | some b => if b.ringBufferAlloc then deletionsOf store hs
                else b.buffer :: deletionsOf store hs
    | none => deletionsOf store hs


end GLRenderer

/-- The C3 failing input: a graph in Ready state holding one built render
pass (backend pass handle 7, framebuffer 9), one pipeline (handle 3) and one
internal rendertarget (handle 4), with a backend whose live sets contain
exactly those objects. -/
def c3Graph : GraphReset.Graph :=
  { state := GraphReset.GState.Ready
  , pipelines := [3]
  , rendertargets := [(1, .internal 4)]
  , renderPasses := [(1, { handle := 7, fb := 9 })]
  , operationCount := 1
  , hasExternalRTs := false
  , renderpassesWithExternalRTs := [] }

/-- The backend live sets matching `c3Graph`. -/
def c3Backend : GraphReset.Backend :=
  { livePipelines := [3]
  , liveRenderPasses := [7]
  , liveFramebuffers := [9]
  , liveRenderTargets := [4]
  , deviceIdled := false }

/-- A concrete renderer state with one outstanding frame that allocated two
ephemeral buffers: handle 1 ring-allocated, handle 2 owned with GL name
42. -/
def c6State : GLRenderer.RState :=
  { buffers := [(1, { buffer := 5, ringBufferAlloc := true, offset := 0, size := 64
                    , type := GLRenderer.BufferType.Uniform })
               ,(2, { buffer := 42, ringBufferAlloc := false, offset := 0, size := 128
                    , type := GLRenderer.BufferType.Everything })]
  , nextBufferHandle := 3
  , frames := [{ fence := true, outstanding := true, ephemeralBuffers := [1, 2]
               , usedRingBufPtr := 192, lastFrameNum := 7 }]
  , glDeletedBuffers := []
  , nextGLBuffer := 50
  , ringBuffer := 5
  , ringBufSize := 1024
  , ringBufPtr := 192
  , currentFrameIdx := 0
  , lastSyncedFrame := 0
  , lastSyncedRingBufPtr := 0 }

namespace PipelineCache

/-- Modelled from the spec: `PipelineDesc` (renderer header, not under
src/).  Per §4.6 a pipeline's "full declarative description" is compared
structurally and includes "the concrete backend render pass"; the fields
other than the render-pass handle are collapsed into one opaque payload
compared structurally. -/
structure PipelineDesc where
  renderPass : Nat
  payload    : Nat
deriving DecidableEq, Repr

/-- The `RenderGraph` members `createPipeline` touches: the pipeline cache
(a plain vector scanned linearly), the built render-pass handles of the
graph's passes, and the backend's fresh-handle counter standing for
`renderer.createPipeline`. -/
structure Cache where
  pipelines           : List (PipelineDesc × Nat)
  renderPassHandles   : Nat → Nat
  nextBackendPipeline : Nat

/-- The linear scan `for (const auto &pipeline : pipelines) if (pipeline.desc
== desc) return pipeline.handle;` (smaaDemo.cpp lines 5965-5969). -/
def findPipeline : List (PipelineDesc × Nat) → PipelineDesc → Option Nat
  | [], _ => none
  | p :: ps, d => if p.1 = d then some p.2 else findPipeline ps d

/-- `RenderGraph::createPipeline` (smaaDemo.cpp lines 5957-5979): the
description's render-pass field is overwritten with the graph pass's backend
handle, the cache is scanned linearly, and on a miss a new backend pipeline
is created and appended. -/
def createPipeline (c : Cache) (rp : Nat) (desc : PipelineDesc) : Nat × Cache :=
  let desc2 : PipelineDesc := { desc with renderPass := c.renderPassHandles rp }
  match findPipeline c.pipelines desc2 with
  | some h => (h, c)
  | none =>
      let h := c.nextBackendPipeline
      (h, { c with pipelines := c.pipelines ++ [(desc2, h)]
                 , nextBackendPipeline := h + 1 })

end PipelineCache

namespace GLDescriptors

/-- `DSIndex` (renderer header, as used by OpenGLRenderer.cpp): a (set
index, binding index) pair. -/
structure DSIndex where
  set     : Nat
  binding : Nat
deriving DecidableEq, Repr

/-- The value type of the `descriptors` map: the C++
`boost::variant<BufferHandle, CSampler, SamplerHandle, TextureHandle>`
(`which()` = 0, 1, 2, 3 in `rebindDescriptorSets`). -/
inductive Descriptor
  | bufferHandle (h : Nat)
  | csampler (tex samp : Nat)
  | samplerHandle (h : Nat)
  | textureHandle (h : Nat)
deriving DecidableEq, Repr

/-- The backend binding calls `rebindDescriptorSets` can issue
(OpenGLRenderer.cpp lines 2345-2417). -/
inductive BindCall
  | bindBufferRangeUBO (index buffer offset size : Nat)
  | bindBufferRangeSSBO (index buffer offset size : Nat)
  | bindTextureUnit (unit tex : Nat)
  | bindSampler (unit sampler : Nat)
deriving DecidableEq, Repr

/-- The per-pipeline `ShaderResources` lists driving
`rebindDescriptorSets`: for each resource class, the `DSIndex` each slot
reads its descriptor from. -/
structure ShaderResources where
  ubos     : List DSIndex
  ssbos    : List DSIndex
  textures : List DSIndex
  samplers : List DSIndex
deriving DecidableEq, Repr

/-- The `RendererImpl` members the descriptor-binding path touches:
the dirty flag (spelled `decriptorSetsDirty` in the source), the pending
descriptor map, the object stores consulted during rebinding, the current
pipeline's resources, the log of backend binding calls, and a draw
counter. -/
structure GLState where
  decriptorSetsDirty : Bool
  descriptors        : List (DSIndex × Descriptor)
  buffers            : List (Nat × GLRenderer.Buffer)
  textures           : List (Nat × Nat)
  samplers           : List (Nat × Nat)
  resources          : ShaderResources
  bindLog            : List BindCall
  drawCalls          : Nat

/-- The writing loop of `bindDescriptorSet` (OpenGLRenderer.cpp lines
2230-2306): for the `descIndex`-th layout entry, store the descriptor read
from the packed blob under key (set index, descIndex).  The layout entries
paired with the blob contents are modelled directly as the list of
descriptors. -/
def writeDescriptors (index : Nat) :
    Nat → List Descriptor → List (DSIndex × Descriptor) → List (DSIndex × Descriptor)
  | _, [], m => m
  | descIndex, d :: ds, m =>
      writeDescriptors index (descIndex + 1) ds ((⟨index, descIndex⟩, d) :: m)

/-- `RendererImpl::bindDescriptorSet` (OpenGLRenderer.cpp lines 2217-2307):
sets the dirty flag and writes the pending map; no backend call is
issued (the buffer/sampler `get`s along the way are container reads and
debug assertions only). -/
def bindDescriptorSet (st : GLState) (index : Nat) (data : List Descriptor) : GLState :=
  { st with decriptorSetsDirty := true
          , descriptors := writeDescriptors index 0 data st.descriptors }

/-- `descriptors.at(r)`: throws when absent, a contract violation; the
default is immaterial for well-formed states. -/
def descriptorAt (m : List (DSIndex × Descriptor)) (k : DSIndex) : Descriptor :=
  (assocFind m k).getD (Descriptor.bufferHandle 0)

/-- `buffers.get(boost::get<BufferHandle>(d))`: wrong variant or dead handle
assert/throw, contract violations; defaults are immaterial for well-formed
states. -/
def bufferOfDescriptor (st : GLState) (d : Descriptor) : GLRenderer.Buffer :=
  match d with
  | .bufferHandle h => (assocFind st.buffers h).getD default
  | _ => default

/-- The batch of backend binding calls `rebindDescriptorSets`
(OpenGLRenderer.cpp lines 2345-2417) issues: one `glBindBufferRange` per UBO
slot, one per SSBO slot, one `glBindTextureUnit` per texture slot, one
`glBindSampler` per sampler slot, each looked up in the pending map (the
`UNREACHABLE` variants are contract violations; a zero name stands in). -/
def rebindBatch (st : GLState) : List BindCall :=
  (st.resources.ubos.enum.map fun p =>
    let b := bufferOfDescriptor st (descriptorAt st.descriptors p.2)
    BindCall.bindBufferRangeUBO p.1 b.buffer b.offset b.size)
  ++ (st.resources.ssbos.enum.map fun p =>
    let b := bufferOfDescriptor st (descriptorAt st.descriptors p.2)
    BindCall.bindBufferRangeSSBO p.1 b.buffer b.offset b.size)
  ++ (st.resources.textures.enum.map fun p =>
    match descriptorAt st.descriptors p.2 with
    | .csampler tex _ => BindCall.bindTextureUnit p.1 ((assocFind st.textures tex).getD 0)
    | .textureHandle h => BindCall.bindTextureUnit p.1 ((assocFind st.textures h).getD 0)
    | _ => BindCall.bindTextureUnit p.1 0)
  ++ (st.resources.samplers.enum.map fun p =>
    match descriptorAt st.descriptors p.2 with
    | .csampler _ samp => BindCall.bindSampler p.1 ((assocFind st.samplers samp).getD 0)
    | .samplerHandle h => BindCall.bindSampler p.1 ((assocFind st.samplers h).getD 0)
    | _ => BindCall.bindSampler p.1 0)

/-- `RendererImpl::draw` (OpenGLRenderer.cpp lines 2503-2520): when the
dirty flag is set the whole pending map is flushed in one batch by
`rebindDescriptorSets`, which then clears the flag; otherwise no binding
call is issued; either way the draw is recorded. -/
def draw (st : GLState) : GLState :=
  let st2 := if st.decriptorSetsDirty
             then { st with bindLog := st.bindLog ++ rebindBatch st
                          , decriptorSetsDirty := false }
             else st
  { st2 with drawCalls := st2.drawCalls + 1 }

end GLDescriptors

/-- A concrete descriptor-binding state: dirty flag set, one pending UBO
descriptor at (0,0), one ring buffer, a pipeline using one UBO slot. -/
def c9State : GLDescriptors.GLState :=
  { decriptorSetsDirty := true
  , descriptors := [(⟨0, 0⟩, .bufferHandle 1)]
  , buffers := [(1, { buffer := 5, ringBufferAlloc := true, offset := 0, size := 64
                    , type := GLRenderer.BufferType.Uniform })]
  , textures := []
  , samplers := []
  , resources := { ubos := [⟨0, 0⟩], ssbos := [], textures := [], samplers := [] }
  , bindLog := []
  , drawCalls := 0 }

/-! Helper lemmas about the ring allocator's alignment arithmetic. -/

namespace NullRenderer

lemma addend_eq : addend = 255 := rfl

lemma alignPtr_def (p : Nat) : alignPtr p = (p + 255) % U32 / 256 * 256 := by
  rw [alignPtr, addend_eq]

lemma alignPtr_le (p : Nat) : alignPtr p ≤ p + 255 := by
  rw [alignPtr_def]
  exact le_trans (Nat.div_mul_le_self _ _) (Nat.mod_le _ _)

lemma alignPtr_ge (p : Nat) (h : p + 255 < U32) : p ≤ alignPtr p := by
  rw [alignPtr_def, Nat.mod_eq_of_lt h]
  have h2 := Nat.div_add_mod (p + 255) 256
  have h3 : (p + 255) % 256 < 256 := Nat.mod_lt _ (by norm_num)
  omega

lemma alignPtr_dvd (p : Nat) : 256 ∣ alignPtr p := by
  rw [alignPtr_def]
  exact dvd_mul_left 256 _

lemma alignPtr_of_dvd (p : Nat) (hd : 256 ∣ p) (h : p + 255 < U32) : alignPtr p = p := by
  obtain ⟨k, rfl⟩ := hd
  rw [alignPtr_def, Nat.mod_eq_of_lt h, Nat.mul_add_div (by norm_num : (0:Nat) < 256)]
  have h255 : (255:Nat) / 256 = 0 := by norm_num
  rw [h255]
  omega

end NullRenderer

lemma assocFind_remove_self {κ α : Type} [DecidableEq κ] (l : List (κ × α)) (k : κ) :
    assocFind (assocRemove l k) k = none := by
  induction l with
  | nil => rfl
  | cons p ps ih =>
    simp only [assocRemove]
    by_cases h : p.1 = k
    · rw [if_pos h]; exact ih
    · rw [if_neg h]; simp only [assocFind, if_neg h]; exact ih

lemma assocFind_remove_ne {κ α : Type} [DecidableEq κ] (l : List (κ × α)) (k j : κ)
    (h : j ≠ k) : assocFind (assocRemove l k) j = assocFind l j := by
  induction l with
  | nil => rfl
  | cons p ps ih =>
    simp only [assocRemove]
    by_cases hp : p.1 = k
    · rw [if_pos hp, ih]
      have hpj : ¬ p.1 = j := by intro e; exact h (e ▸ hp)
      simp only [assocFind, if_neg hpj]
    · rw [if_neg hp]
      simp only [assocFind]
      by_cases h2 : p.1 = j
      · rw [if_pos h2, if_pos h2]
      · rw [if_neg h2, if_neg h2]; exact ih

lemma assocFind_absent_remove {κ α : Type} [DecidableEq κ] (l : List (κ × α)) (k j : κ)
    (h : assocFind l k = none) : assocFind (assocRemove l j) k = none := by
  by_cases hj : k = j
  · subst hj; exact assocFind_remove_self l k
  · rw [assocFind_remove_ne l j k hj]; exact h

lemma assocFind_append_self {κ α : Type} [DecidableEq κ] (l : List (κ × α)) (k : κ) (v : α)
    (h : assocFind l k = none) : assocFind (l ++ [(k, v)]) k = some v := by
  induction l with
  | nil => simp [assocFind]
  | cons p ps ih =>
    simp only [assocFind] at h ⊢
    by_cases hp : p.1 = k
    · rw [if_pos hp] at h; cases h
    · rw [if_neg hp] at h ⊢
      exact ih h

lemma assocFind_append_ne {κ α : Type} [DecidableEq κ] (l : List (κ × α)) (k j : κ) (v : α)
    (h : j ≠ k) : assocFind (l ++ [(k, v)]) j = assocFind l j := by
  induction l with
  | nil =>
    have hkj : ¬ k = j := fun e => h e.symm
    simp [assocFind, hkj]
  | cons p ps ih =>
    simp only [assocFind]
    by_cases hp : p.1 = j
    · rw [if_pos hp, if_pos hp]
    · rw [if_neg hp, if_neg hp]; exact ih

namespace GLRenderer

lemma deletionsOf_remove (store : List (Nat × Buffer)) (k : Nat) :
    ∀ hs : List Nat, k ∉ hs → deletionsOf (assocRemove store k) hs = deletionsOf store hs := by
  intro hs
  induction hs with
  | nil => intro _; rfl
  | cons h tl ih =>
    intro hnk
    have hne : h ≠ k := fun e => hnk (e ▸ List.mem_cons_self _ _)
    have htl := ih (fun m => hnk (List.mem_cons_of_mem _ m))
    simp only [deletionsOf, assocFind_remove_ne store k h hne, htl]

lemma reclaim_preserves_absence (h : Nat) :
    ∀ (hs : List Nat) (store : List (Nat × Buffer)) (log : List Nat),
      assocFind store h = none → assocFind (reclaimBuffers hs store log).1 h = none := by
  intro hs
  induction hs with
  | nil => intro store log habs; exact habs
  | cons k tl ih =>
    intro store log habs
    simp only [reclaimBuffers]
    cases hfind : assocFind store k with
    | some b => exact ih _ _ (assocFind_absent_remove store h k habs)
    | none => exact ih _ _ (assocFind_absent_remove store h k habs)

lemma reclaim_removes (h : Nat) :
    ∀ (hs : List Nat) (store : List (Nat × Buffer)) (log : List Nat),
      h ∈ hs → assocFind (reclaimBuffers hs store log).1 h = none := by
  intro hs
  induction hs with
  | nil => intro store log hmem; cases hmem
  | cons k tl ih =>
    intro store log hmem
    by_cases hk : h = k
    · subst hk
      simp only [reclaimBuffers]
      cases hfind : assocFind store h with
      | some b => exact reclaim_preserves_absence h tl _ _ (assocFind_remove_self store h)
      | none => exact reclaim_preserves_absence h tl _ _ (assocFind_remove_self store h)
    · have hmem2 : h ∈ tl := by
        cases List.mem_cons.mp hmem with
        | inl e => exact absurd e hk
        | inr m => exact m
      simp only [reclaimBuffers]
      cases hfind : assocFind store k with
      | some b => exact ih _ _ hmem2
      | none => exact ih _ _ hmem2

lemma reclaim_log_append :
    ∀ (hs : List Nat) (store : List (Nat × Buffer)) (log : List Nat),
      (reclaimBuffers hs store log).2 = log ++ (reclaimBuffers hs store []).2 := by
  intro hs
  induction hs with
  | nil => intro store log; simp [reclaimBuffers]
  | cons k tl ih =>
    intro store log
    simp only [reclaimBuffers]
    cases hfind : assocFind store k with
    | some b =>
      by_cases hr : b.ringBufferAlloc
      · simp only [if_pos hr]
        exact ih _ _
      · simp only [if_neg hr]
        rw [ih (assocRemove store k) (log ++ [b.buffer]),
            ih (assocRemove store k) ([] ++ [b.buffer])]
        simp
    | none => exact ih _ _

lemma reclaim_log_eq :
    ∀ (hs : List Nat) (store : List (Nat × Buffer)) (log : List Nat), hs.Nodup →
      (reclaimBuffers hs store log).2 = log ++ deletionsOf store hs := by
  intro hs
  induction hs with
  | nil => intro store log _; simp [reclaimBuffers, deletionsOf]
  | cons k tl ih =>
    intro store log hnd
    have hk : k ∉ tl := (List.nodup_cons.mp hnd).1
    have htl : tl.Nodup := (List.nodup_cons.mp hnd).2
    simp only [reclaimBuffers, deletionsOf]
    cases hfind : assocFind store k with
    | some b =>
      by_cases hr : b.ringBufferAlloc
      · simp only [if_pos hr]
        rw [ih _ _ htl, deletionsOf_remove store k tl hk]
      · simp only [if_neg hr]
        rw [ih _ _ htl, deletionsOf_remove store k tl hk]
        simp
    | none =>
      rw [ih _ _ htl, deletionsOf_remove store k tl hk]

lemma reclaim_deletes_mem (h : Nat) (b : Buffer) (hring : b.ringBufferAlloc = false) :
    ∀ (hs : List Nat) (store : List (Nat × Buffer)) (log : List Nat),
      h ∈ hs → assocFind store h = some b →
      b.buffer ∈ (reclaimBuffers hs store log).2 := by
  intro hs
  induction hs with
  | nil => intro store log hmem _; cases hmem
  | cons k tl ih =>
    intro store log hmem hfind
    by_cases hk : h = k
    · subst hk
      simp only [reclaimBuffers, hfind, hring]
      rw [if_neg (by simp [hring])]
      rw [reclaim_log_append]
      simp
    · have hmem2 : h ∈ tl := by
        cases List.mem_cons.mp hmem with
        | inl e => exact absurd e hk
        | inr m => exact m
      have hfind2 : assocFind (assocRemove store k) h = some b := by
        rw [assocFind_remove_ne store k h hk]; exact hfind
      simp only [reclaimBuffers]
      cases hf : assocFind store k with
      | some b2 => exact ih _ _ hmem2 hfind2
      | none => exact ih _ _ hmem2 hfind2

/-- `frames.at(i)` after `frames.set i x` yields `x`. -/
lemma getD_set_self {α : Type} : ∀ (l : List α) (i : Nat) (x d : α), i < l.length →
    (l.set i x).getD i d = x := by
  intro l
  induction l with
  | nil => intro i x d h; simp at h
  | cons a as ih =>
    intro i x d h
    cases i with
    | zero => rfl
    | succ j => exact ih j x d (by simpa using h)

/-- `frames.at(j)` for `j ≠ i` is unchanged by `frames.set i x`. -/
lemma getD_set_ne {α : Type} : ∀ (l : List α) (i j : Nat) (x d : α), i ≠ j →
    (l.set i x).getD j d = l.getD j d := by
  intro l
  induction l with
  | nil => intro i j x d _; rfl
  | cons a as ih =>
    intro i j x d h
    cases i with
    | zero =>
      cases j with
      | zero => exact absurd rfl h
      | succ j2 => rfl
    | succ i2 =>
      cases j with
      | zero => rfl
      | succ j2 => exact ih i2 j2 x d (fun e => h (congrArg Nat.succ e))

end GLRenderer

namespace PipelineCache

lemma findPipeline_append_self (l : List (PipelineDesc × Nat)) (d : PipelineDesc) (h : Nat)
    (hnone : findPipeline l d = none) : findPipeline (l ++ [(d, h)]) d = some h := by
  induction l with
  | nil => simp [findPipeline]
  | cons p ps ih =>
    simp only [findPipeline] at hnone ⊢
    by_cases hp : p.1 = d
    · rw [if_pos hp] at hnone; cases hnone
    · rw [if_neg hp] at hnone ⊢
      exact ih hnone

end PipelineCache

namespace GLDescriptors

lemma writeDescriptors_find_ne (index : Nat) :
    ∀ (ds : List Descriptor) (di : Nat) (m : List (DSIndex × Descriptor)) (k : DSIndex),
      k.set ≠ index → assocFind (writeDescriptors index di ds m) k = assocFind m k := by
  intro ds
  induction ds with
  | nil => intro di m k _; rfl
  | cons d tl ih =>
    intro di m k h
    simp only [writeDescriptors]
    rw [ih (di + 1) _ k h]
    simp only [assocFind]
    rw [if_neg]
    intro e
    have e2 := congrArg DSIndex.set e
    exact h e2.symm

lemma writeDescriptors_find_lt (index : Nat) :
    ∀ (ds : List Descriptor) (di : Nat) (m : List (DSIndex × Descriptor)) (k : DSIndex),
      k.binding < di → assocFind (writeDescriptors index di ds m) k = assocFind m k := by
  intro ds
  induction ds with
  | nil => intro di m k _; rfl
  | cons d tl ih =>
    intro di m k h
    simp only [writeDescriptors]
    rw [ih (di + 1) _ k (by omega)]
    simp only [assocFind]
    rw [if_neg]
    intro e
    have e2 : di = k.binding := congrArg DSIndex.binding e
    omega

lemma writeDescriptors_find_at (index : Nat) :
    ∀ (ds : List Descriptor) (di : Nat) (m : List (DSIndex × Descriptor)) (i : Nat)
      (d : Descriptor), ds.get? i = some d →
      assocFind (writeDescriptors index di ds m) ⟨index, di + i⟩ = some d := by
  intro ds
  induction ds with
  | nil => intro di m i d hget; simp at hget
  | cons hd tl ih =>
    intro di m i d hget
    cases i with
    | zero =>
      have : hd = d := by simpa using hget
      subst this
      simp only [writeDescriptors, Nat.add_zero]
      rw [writeDescriptors_find_lt index tl (di + 1) _ ⟨index, di⟩ (Nat.lt_succ_self di)]
      simp [assocFind]
    | succ j =>
      have hrw : di + (j + 1) = (di + 1) + j := by omega
      rw [hrw]
      simp only [writeDescriptors]
      exact ih (di + 1) _ j d (by simpa using hget)

end GLDescriptors

/-- C1: in the example graph (internal A = 1, B = 2 of format 5; P1 writes A
with Clear, P2 reads A and writes B with Clear, B the present target),
build()'s backward layout pass infers final layout ShaderRead for P1's
attachment A and final layout TransferSrc for P2's attachment B. -/
theorem C1_example_layouts :
    ((RenderGraph.buildLayouts 2 c1RTs c1Passes c1Ops).2.1 1).rpDesc.colorRTs.map
        RenderGraph.AttachmentDesc.finalLayout = [RenderGraph.Layout.ShaderRead] ∧
    ((RenderGraph.buildLayouts 2 c1RTs c1Passes c1Ops).2.1 2).rpDesc.colorRTs.map
        RenderGraph.AttachmentDesc.finalLayout = [RenderGraph.Layout.TransferSrc] := by
  exact ⟨by decide, by decide⟩

/-- C2 counterexample: for the Keep-attachment T of pass P, the code infers
initial layout ColorAttachment — a fixed constant — although the
currently-inferred layout state of T at that point of the backward pass is
ShaderRead (visible as the inferred final layout, which the code copies from
the same `currentLayouts` entry).  So with begin = Keep the inferred initial
layout does NOT equal the attachment's currently-inferred layout state. -/
theorem C2_keep_initial_counterexample :
    ((RenderGraph.buildLayouts 2 c2RTs c2Passes c2Ops).2.1 1).rpDesc.colorRTs.map
        RenderGraph.AttachmentDesc.initialLayout = [RenderGraph.Layout.ColorAttachment] ∧
    ((RenderGraph.buildLayouts 2 c2RTs c2Passes c2Ops).2.1 1).rpDesc.colorRTs.map
        RenderGraph.AttachmentDesc.finalLayout = [RenderGraph.Layout.ShaderRead] ∧
    RenderGraph.Layout.ColorAttachment ≠ RenderGraph.Layout.ShaderRead := by
  exact ⟨by decide, by decide, by decide⟩

/-- C2 amended: in build()'s backward pass, for every color attachment (any
slot of any pass, at any point of the pass), the inferred initial layout is
Undefined when the begin behavior is Clear or DontCare, and the FIXED
constant ColorAttachment when it is Keep (not the currently-inferred layout
state). -/
theorem C2_initial_layout (rts : List (RenderGraph.RTId × RenderGraph.Rendertarget))
    (cs : List (RenderGraph.RTInfo × RenderGraph.AttachmentDesc)) (m : RenderGraph.LMap)
    (i : Nat) (c : RenderGraph.RTInfo) (old : RenderGraph.AttachmentDesc)
    (hget : cs.get? i = some (c, old)) (hid : c.id ≠ 0) :
    ∃ slot, (RenderGraph.processColors rts cs m).1.get? i = some slot ∧
      slot.passBegin = c.passBegin ∧
      slot.initialLayout = (if c.passBegin = RenderGraph.PassBegin.Keep
                            then RenderGraph.Layout.ColorAttachment
                            else RenderGraph.Layout.Undefined) := by
  induction cs generalizing m i with
  | nil => simp at hget
  | cons hd tl ih =>
    obtain ⟨c', old'⟩ := hd
    cases i with
    | zero =>
      simp only [List.get?] at hget
      obtain ⟨rfl, rfl⟩ : c' = c ∧ old' = old := by
        constructor <;> injection hget with h1 <;> injection h1
      simp only [RenderGraph.processColors, if_neg hid]
      exact ⟨_, rfl, rfl, rfl⟩
    | succ j =>
      simp only [List.get?] at hget
      simp only [RenderGraph.processColors]
      by_cases h0 : c'.id = 0
      · rw [if_pos h0]
        obtain ⟨slot, hs1, hs2, hs3⟩ := ih m j hget
        exact ⟨slot, by simpa using hs1, hs2, hs3⟩
      · rw [if_neg h0]
        obtain ⟨slot, hs1, hs2, hs3⟩ := ih (m.insert c'.id
          (if c'.passBegin = RenderGraph.PassBegin.Keep
           then RenderGraph.Layout.ColorAttachment
           else RenderGraph.Layout.Undefined)) j hget
        exact ⟨slot, by simpa using hs1, hs2, hs3⟩

/-- Witness for C2's amended statement: a single Keep attachment of target 1
is given initial layout ColorAttachment. -/
theorem C2_initial_layout_witness :
    ((([({ id := 1, passBegin := RenderGraph.PassBegin.Keep },
         RenderGraph.emptyAttachment)] :
        List (RenderGraph.RTInfo × RenderGraph.AttachmentDesc)).get? 0
      = some ({ id := 1, passBegin := RenderGraph.PassBegin.Keep },
              RenderGraph.emptyAttachment)) ∧
     ((1:Nat) ≠ 0)) ∧
    ∃ slot, (RenderGraph.processColors c2RTs
        [({ id := 1, passBegin := RenderGraph.PassBegin.Keep },
          RenderGraph.emptyAttachment)] RenderGraph.LMap.empty).1.get? 0 = some slot ∧
      slot.passBegin = RenderGraph.PassBegin.Keep ∧
      slot.initialLayout = (if RenderGraph.PassBegin.Keep = RenderGraph.PassBegin.Keep
                            then RenderGraph.Layout.ColorAttachment
                            else RenderGraph.Layout.Undefined) :=
  ⟨⟨by decide, by decide⟩,
   C2_initial_layout c2RTs
     [({ id := 1, passBegin := RenderGraph.PassBegin.Keep }, RenderGraph.emptyAttachment)]
     RenderGraph.LMap.empty 0
     { id := 1, passBegin := RenderGraph.PassBegin.Keep } RenderGraph.emptyAttachment
     (by decide) (by decide)⟩

/-- C3: evaluating `reset` at the failing input shows the divergence: the
pipeline and the internal rendertarget are destroyed, but the backend render
pass (7) and framebuffer (9) built by the previous build survive reset —
`renderPasses.clear()` at the top of `reset` (smaaDemo.cpp line 5911) runs
before the loop (lines 5935-5946) that would call
`deleteRenderPass`/`deleteFramebuffer`, so that loop iterates an empty map —
and the deletions that do happen are issued before `waitForDeviceIdle`, not
after it. -/
theorem C3_reset_leaks_renderpasses :
    (GraphReset.reset c3Graph c3Backend).2.livePipelines = [] ∧
    (GraphReset.reset c3Graph c3Backend).2.liveRenderTargets = [] ∧
    (GraphReset.reset c3Graph c3Backend).2.liveRenderPasses = [7] ∧
    (GraphReset.reset c3Graph c3Backend).2.liveFramebuffers = [9] ∧
    (GraphReset.reset c3Graph c3Backend).1.renderPasses = [] ∧
    (GraphReset.reset c3Graph c3Backend).2.deviceIdled = true := by
  exact ⟨by decide, by decide, by decide, by decide, by decide, by decide⟩

/-- C4: an allocation whose aligned range reaches past the ring end advances
the cursor to the next buffer-size boundary and starts at offset 0; one that
fits starts at the rounded cursor; and with ring size 1024 two sequential
600-byte allocations in one frame return offsets 0 and 0 (the second wraps
rather than returning 600). -/
theorem C4_ring_wrap (s : NullRenderer.RingState) (size : Nat)
    (hB : 0 < s.ringBufSize)
    (hdvd : 256 ∣ s.ringBufSize)
    (hov : (s.ringBufPtr / s.ringBufSize + 1) * s.ringBufSize + 255 + size
           < NullRenderer.U32) :
    (s.ringBufSize ≤ NullRenderer.alignPtr s.ringBufPtr % s.ringBufSize + size →
      (NullRenderer.createEphemeralBuffer s size).1 = 0 ∧
      (NullRenderer.createEphemeralBuffer s size).2.ringBufPtr
        = (s.ringBufPtr / s.ringBufSize + 1) * s.ringBufSize + size) ∧
    (NullRenderer.alignPtr s.ringBufPtr % s.ringBufSize + size < s.ringBufSize →
      (NullRenderer.createEphemeralBuffer s size).1
        = NullRenderer.alignPtr s.ringBufPtr % s.ringBufSize) ∧
    NullRenderer.allocateAll ⟨1024, 0⟩ [600, 600] = [0, 0] := by
  have hBU : s.ringBufSize + size < NullRenderer.U32 := by
    have h1 : s.ringBufSize ≤ (s.ringBufPtr / s.ringBufSize + 1) * s.ringBufSize :=
      Nat.le_mul_of_pos_left _ (Nat.succ_pos _)
    omega
  have ho1 : NullRenderer.alignPtr s.ringBufPtr % s.ringBufSize < s.ringBufSize :=
    Nat.mod_lt _ hB
  refine ⟨?_, ?_, by decide⟩
  · intro hcross
    have hcond : s.ringBufSize
        ≤ (NullRenderer.alignPtr s.ringBufPtr % s.ringBufSize + size) % NullRenderer.U32 := by
      rw [Nat.mod_eq_of_lt (by omega)]
      exact hcross
    have hrbp2lt : (s.ringBufPtr / s.ringBufSize + 1) * s.ringBufSize % NullRenderer.U32
        = (s.ringBufPtr / s.ringBufSize + 1) * s.ringBufSize :=
      Nat.mod_eq_of_lt (by omega)
    have hdvd2 : 256 ∣ (s.ringBufPtr / s.ringBufSize + 1) * s.ringBufSize :=
      Dvd.dvd.mul_left hdvd _
    have halign : NullRenderer.alignPtr ((s.ringBufPtr / s.ringBufSize + 1) * s.ringBufSize)
        = (s.ringBufPtr / s.ringBufSize + 1) * s.ringBufSize :=
      NullRenderer.alignPtr_of_dvd _ hdvd2 (by omega)
    simp only [NullRenderer.createEphemeralBuffer]
    rw [if_pos hcond, hrbp2lt, halign]
    refine ⟨Nat.mul_mod_left _ _, ?_⟩
    exact Nat.mod_eq_of_lt (by omega)
  · intro hin
    have hcond : ¬ s.ringBufSize
        ≤ (NullRenderer.alignPtr s.ringBufPtr % s.ringBufSize + size) % NullRenderer.U32 := by
      rw [Nat.mod_eq_of_lt (by omega)]
      omega
    simp only [NullRenderer.createEphemeralBuffer]
    rw [if_neg hcond]

/-- Witness for C4 at ring size 1024, cursor 0, allocation size 600. -/
theorem C4_ring_wrap_witness :
    ((0:Nat) < 1024) ∧ (256 ∣ (1024:Nat)) ∧
    ((0 / 1024 + 1) * 1024 + 255 + 600 < NullRenderer.U32) ∧
    ((1024 ≤ NullRenderer.alignPtr 0 % 1024 + 600 →
      (NullRenderer.createEphemeralBuffer ⟨1024, 0⟩ 600).1 = 0 ∧
      (NullRenderer.createEphemeralBuffer ⟨1024, 0⟩ 600).2.ringBufPtr
        = (0 / 1024 + 1) * 1024 + 600) ∧
    (NullRenderer.alignPtr 0 % 1024 + 600 < 1024 →
      (NullRenderer.createEphemeralBuffer ⟨1024, 0⟩ 600).1
        = NullRenderer.alignPtr 0 % 1024) ∧
    NullRenderer.allocateAll ⟨1024, 0⟩ [600, 600] = [0, 0]) :=
  ⟨by decide, by decide, by decide,
   C4_ring_wrap ⟨1024, 0⟩ 600 (by decide) (by decide) (by decide)⟩

/-- C5 counterexample: two allocations granted within one frame (so their
owning frame has not retired) from a 1024-byte ring, both of 600 bytes, are
handed the same offset 0: the live ranges `[0, 600)` and `[0, 600)`
overlap. -/
theorem C5_overlap_counterexample :
    ¬ NullRenderer.rangesDisjoint
        ((NullRenderer.allocateAll ⟨1024, 0⟩ [600, 600]).getD 0 0) 600
        ((NullRenderer.allocateAll ⟨1024, 0⟩ [600, 600]).getD 1 0) 600 := by
  decide

/-- C5 amended: two consecutive allocations whose aligned cursors stay within
the same ring-buffer period (neither wraps) are handed disjoint byte
ranges. -/
theorem C5_consecutive_disjoint (s : NullRenderer.RingState) (size1 size2 : Nat)
    (hBU : s.ringBufSize < NullRenderer.U32)
    (hp2 : NullRenderer.alignPtr s.ringBufPtr + size1 + 255 < NullRenderer.U32)
    (h1 : NullRenderer.alignPtr s.ringBufPtr % s.ringBufSize + size1 < s.ringBufSize)
    (h2 : NullRenderer.alignPtr (NullRenderer.alignPtr s.ringBufPtr + size1) % s.ringBufSize
          + size2 < s.ringBufSize)
    (hsp : NullRenderer.alignPtr (NullRenderer.alignPtr s.ringBufPtr + size1) / s.ringBufSize
           = NullRenderer.alignPtr s.ringBufPtr / s.ringBufSize) :
    NullRenderer.rangesDisjoint
      (NullRenderer.createEphemeralBuffer s size1).1 size1
      (NullRenderer.createEphemeralBuffer
        (NullRenderer.createEphemeralBuffer s size1).2 size2).1 size2 := by
  have hc1 : ¬ s.ringBufSize
      ≤ (NullRenderer.alignPtr s.ringBufPtr % s.ringBufSize + size1) % NullRenderer.U32 := by
    rw [Nat.mod_eq_of_lt (by omega)]
    omega
  have hptr : (NullRenderer.alignPtr s.ringBufPtr + size1) % NullRenderer.U32
      = NullRenderer.alignPtr s.ringBufPtr + size1 := Nat.mod_eq_of_lt (by omega)
  have e1 : NullRenderer.createEphemeralBuffer s size1
      = (NullRenderer.alignPtr s.ringBufPtr % s.ringBufSize,
         { s with ringBufPtr := (NullRenderer.alignPtr s.ringBufPtr + size1)
                                  % NullRenderer.U32 }) := by
    simp only [NullRenderer.createEphemeralBuffer]
    rw [if_neg hc1]
  have hc2 : ¬ s.ringBufSize
      ≤ (NullRenderer.alignPtr (NullRenderer.alignPtr s.ringBufPtr + size1) % s.ringBufSize
          + size2) % NullRenderer.U32 := by
    rw [Nat.mod_eq_of_lt (by omega)]
    omega
  have e2 : (NullRenderer.createEphemeralBuffer
      { s with ringBufPtr := (NullRenderer.alignPtr s.ringBufPtr + size1)
                               % NullRenderer.U32 } size2).1
      = NullRenderer.alignPtr (NullRenderer.alignPtr s.ringBufPtr + size1)
          % s.ringBufSize := by
    simp only [NullRenderer.createEphemeralBuffer, hptr]
    rw [if_neg hc2]
  rw [e1]
  simp only []
  rw [e2]
  have hge : NullRenderer.alignPtr s.ringBufPtr + size1
      ≤ NullRenderer.alignPtr (NullRenderer.alignPtr s.ringBufPtr + size1) :=
    NullRenderer.alignPtr_ge _ (by omega)
  have d1 := Nat.div_add_mod (NullRenderer.alignPtr s.ringBufPtr) s.ringBufSize
  have d2 := Nat.div_add_mod
    (NullRenderer.alignPtr (NullRenderer.alignPtr s.ringBufPtr + size1)) s.ringBufSize
  rw [hsp] at d2
  left
  omega

/-- Witness for C5's amended statement: ring size 1024, cursor 0, two
allocations of 100 bytes each, handed the disjoint ranges `[0, 100)` and
`[256, 356)`. -/
theorem C5_consecutive_disjoint_witness :
    NullRenderer.rangesDisjoint
      (NullRenderer.createEphemeralBuffer ⟨1024, 0⟩ 100).1 100
      (NullRenderer.createEphemeralBuffer
        (NullRenderer.createEphemeralBuffer ⟨1024, 0⟩ 100).2 100).1 100 :=
  C5_consecutive_disjoint ⟨1024, 0⟩ 100 100 (by decide) (by decide) (by decide)
    (by decide) (by decide)

/-- C6 counterexample: called on an outstanding frame, `waitForFrame` has a
THIRD outcome besides the two the claim allows: when `glClientWaitSync`
reports a wait failure the function throws (`Except.error`) instead of
returning success or timeout (both of which are normal returns). -/
theorem C6_third_outcome_counterexample :
    GLRenderer.returnsNormally
      (GLRenderer.waitForFrame c6State 0 GLRenderer.WaitResult.waitFailed) = false := by
  decide

/-- C6 amended: unless the fence wait itself fails (which throws a fatal
error), `waitForFrame` on an outstanding frame has exactly two outcomes.
Timeout returns `false` with the state (fence, outstanding flag,
ephemeral-buffer list) untouched.  A signaled fence returns `true` with:
the frame's ephemeral buffers all reclaimed from the container; the backend
delete log extended by exactly the GL names of the owned (non-ring)
buffers, ring-allocated ones producing no delete call; the frame's buffer
list emptied, its fence deleted and its outstanding flag cleared; and every
other frame untouched. -/
theorem C6_waitForFrame_outcomes (s : GLRenderer.RState) (idx : Nat)
    (res : GLRenderer.WaitResult)
    (hidx : idx < s.frames.length)
    (_hout : (s.frames.getD idx default).outstanding = true)
    (hnd : (s.frames.getD idx default).ephemeralBuffers.Nodup) :
    (res = GLRenderer.WaitResult.timeoutExpired →
      GLRenderer.waitForFrame s idx res = Except.ok (false, s)) ∧
    (res = GLRenderer.WaitResult.alreadySignaled ∨
     res = GLRenderer.WaitResult.conditionSatisfied →
      ∃ s2, GLRenderer.waitForFrame s idx res = Except.ok (true, s2) ∧
        s2.frames.getD idx default
          = { s.frames.getD idx default with
                fence := false, ephemeralBuffers := [], outstanding := false } ∧
        (∀ h ∈ (s.frames.getD idx default).ephemeralBuffers,
          assocFind s2.buffers h = none) ∧
        s2.glDeletedBuffers
          = s.glDeletedBuffers
            ++ GLRenderer.deletionsOf s.buffers (s.frames.getD idx default).ephemeralBuffers ∧
        (∀ j, j ≠ idx → s2.frames.getD j default = s.frames.getD j default)) := by
  constructor
  · intro h
    subst h
    rfl
  · intro h
    rcases h with rfl | rfl <;>
    · refine ⟨_, rfl, ?_, ?_, ?_, ?_⟩
      · exact GLRenderer.getD_set_self s.frames idx _ default hidx
      · intro h hmem
        exact GLRenderer.reclaim_removes h _ s.buffers s.glDeletedBuffers hmem
      · exact GLRenderer.reclaim_log_eq _ s.buffers s.glDeletedBuffers hnd
      · intro j hj
        exact GLRenderer.getD_set_ne s.frames idx j _ default (fun e => hj e.symm)

/-- Witness for C6's amended statement at the concrete state `c6State`,
signaled fence. -/
theorem C6_waitForFrame_outcomes_witness :
    ((0:Nat) < c6State.frames.length) ∧
    ((c6State.frames.getD 0 default).outstanding = true) ∧
    ((c6State.frames.getD 0 default).ephemeralBuffers.Nodup) ∧
    ((GLRenderer.WaitResult.alreadySignaled = GLRenderer.WaitResult.timeoutExpired →
      GLRenderer.waitForFrame c6State 0 GLRenderer.WaitResult.alreadySignaled
        = Except.ok (false, c6State)) ∧
    (GLRenderer.WaitResult.alreadySignaled = GLRenderer.WaitResult.alreadySignaled ∨
     GLRenderer.WaitResult.alreadySignaled = GLRenderer.WaitResult.conditionSatisfied →
      ∃ s2, GLRenderer.waitForFrame c6State 0 GLRenderer.WaitResult.alreadySignaled
          = Except.ok (true, s2) ∧
        s2.frames.getD 0 default
          = { c6State.frames.getD 0 default with
                fence := false, ephemeralBuffers := [], outstanding := false } ∧
        (∀ h ∈ (c6State.frames.getD 0 default).ephemeralBuffers,
          assocFind s2.buffers h = none) ∧
        s2.glDeletedBuffers
          = c6State.glDeletedBuffers
            ++ GLRenderer.deletionsOf c6State.buffers
                 (c6State.frames.getD 0 default).ephemeralBuffers ∧
        (∀ j, j ≠ 0 → s2.frames.getD j default = c6State.frames.getD j default))) :=
  ⟨by decide, by decide, by decide,
   C6_waitForFrame_outcomes c6State 0 GLRenderer.WaitResult.alreadySignaled
     (by decide) (by decide) (by decide)⟩

/-- C7: with a live ring buffer, `recreateRingBuffer` retires the old ring as
a one-shot owned container entry (`ringBufferAlloc = false`, offset 0, the
old size) appended to the current frame's ephemeral-buffer list, issues no
backend delete, resets the cursor to 0, installs a fresh ring of the new
size, leaves every other buffer entry (hence every existing allocation's
offset) untouched — and the old ring's GL name is deleted exactly when that
frame retires through a successful `waitForFrame`. -/
theorem C7_recreateRingBuffer (s : GLRenderer.RState) (newSize : Nat)
    (hring : s.ringBuffer ≠ 0)
    (hidx : s.currentFrameIdx < s.frames.length)
    (hfresh : assocFind s.buffers s.nextBufferHandle = none) :
    ((GLRenderer.recreateRingBuffer s newSize).frames.getD s.currentFrameIdx
        default).ephemeralBuffers
      = (s.frames.getD s.currentFrameIdx default).ephemeralBuffers
        ++ [s.nextBufferHandle] ∧
    assocFind (GLRenderer.recreateRingBuffer s newSize).buffers s.nextBufferHandle
      = some { buffer := s.ringBuffer, ringBufferAlloc := false, offset := 0
             , size := s.ringBufSize, type := GLRenderer.BufferType.Everything } ∧
    (GLRenderer.recreateRingBuffer s newSize).ringBufPtr = 0 ∧
    (GLRenderer.recreateRingBuffer s newSize).ringBufSize = newSize ∧
    (GLRenderer.recreateRingBuffer s newSize).glDeletedBuffers = s.glDeletedBuffers ∧
    (∀ k, k ≠ s.nextBufferHandle →
      assocFind (GLRenderer.recreateRingBuffer s newSize).buffers k
        = assocFind s.buffers k) ∧
    (∃ s3, GLRenderer.waitForFrame (GLRenderer.recreateRingBuffer s newSize)
        s.currentFrameIdx GLRenderer.WaitResult.alreadySignaled
        = Except.ok (true, s3) ∧ s.ringBuffer ∈ s3.glDeletedBuffers) := by
  have e : GLRenderer.recreateRingBuffer s newSize =
      { buffers := s.buffers
          ++ [(s.nextBufferHandle,
               { buffer := s.ringBuffer, ringBufferAlloc := false, offset := 0
               , size := s.ringBufSize, type := GLRenderer.BufferType.Everything })]
      , nextBufferHandle := s.nextBufferHandle + 1
      , frames := GLRenderer.pushFrameBuffer s.frames s.currentFrameIdx s.nextBufferHandle
      , glDeletedBuffers := s.glDeletedBuffers
      , nextGLBuffer := s.nextGLBuffer + 1
      , ringBuffer := s.nextGLBuffer
      , ringBufSize := newSize
      , ringBufPtr := 0
      , currentFrameIdx := s.currentFrameIdx
      , lastSyncedFrame := s.lastSyncedFrame
      , lastSyncedRingBufPtr := s.lastSyncedRingBufPtr } := by
    simp only [GLRenderer.recreateRingBuffer, if_pos hring]
  have hframes : (GLRenderer.pushFrameBuffer s.frames s.currentFrameIdx
        s.nextBufferHandle).getD s.currentFrameIdx default
      = { s.frames.getD s.currentFrameIdx default with
            ephemeralBuffers := (s.frames.getD s.currentFrameIdx
              default).ephemeralBuffers ++ [s.nextBufferHandle] } := by
    simp only [GLRenderer.pushFrameBuffer]
    exact GLRenderer.getD_set_self s.frames s.currentFrameIdx _ default hidx
  have hfind : assocFind (s.buffers
      ++ [(s.nextBufferHandle,
           ({ buffer := s.ringBuffer, ringBufferAlloc := false, offset := 0
            , size := s.ringBufSize
            , type := GLRenderer.BufferType.Everything } : GLRenderer.Buffer))])
      s.nextBufferHandle
      = some { buffer := s.ringBuffer, ringBufferAlloc := false, offset := 0
             , size := s.ringBufSize, type := GLRenderer.BufferType.Everything } :=
    assocFind_append_self _ _ _ hfresh
  refine ⟨?_, ?_, ?_, ?_, ?_, ?_, ?_⟩
  · rw [e]
    simpa using congrArg GLRenderer.Frame.ephemeralBuffers hframes
  · rw [e]
    exact hfind
  · rw [e]
  · rw [e]
  · rw [e]
  · intro k hk
    rw [e]
    exact assocFind_append_ne s.buffers s.nextBufferHandle k _ hk
  · refine ⟨_, rfl, ?_⟩
    show s.ringBuffer ∈ (GLRenderer.reclaimBuffers
      ((GLRenderer.recreateRingBuffer s newSize).frames.getD s.currentFrameIdx
        default).ephemeralBuffers
      (GLRenderer.recreateRingBuffer s newSize).buffers
      (GLRenderer.recreateRingBuffer s newSize).glDeletedBuffers).2
    have hmem : s.nextBufferHandle
        ∈ ((GLRenderer.recreateRingBuffer s newSize).frames.getD s.currentFrameIdx
            default).ephemeralBuffers := by
      rw [e]
      rw [show ((GLRenderer.pushFrameBuffer s.frames s.currentFrameIdx
          s.nextBufferHandle).getD s.currentFrameIdx default).ephemeralBuffers
          = (s.frames.getD s.currentFrameIdx default).ephemeralBuffers
            ++ [s.nextBufferHandle] from congrArg GLRenderer.Frame.ephemeralBuffers hframes]
      simp
    have hfind2 : assocFind (GLRenderer.recreateRingBuffer s newSize).buffers
        s.nextBufferHandle
        = some { buffer := s.ringBuffer, ringBufferAlloc := false, offset := 0
               , size := s.ringBufSize, type := GLRenderer.BufferType.Everything } := by
      rw [e]
      exact hfind
    exact GLRenderer.reclaim_deletes_mem s.nextBufferHandle _ rfl _ _ _ hmem hfind2

/-- Witness for C7 at a concrete one-frame state with live ring GL name 5. -/
theorem C7_recreateRingBuffer_witness :
    (c6State.ringBuffer ≠ 0) ∧
    (c6State.currentFrameIdx < c6State.frames.length) ∧
    (assocFind c6State.buffers c6State.nextBufferHandle = none) ∧
    (((GLRenderer.recreateRingBuffer c6State 2048).frames.getD c6State.currentFrameIdx
        default).ephemeralBuffers
      = (c6State.frames.getD c6State.currentFrameIdx default).ephemeralBuffers
        ++ [c6State.nextBufferHandle] ∧
    assocFind (GLRenderer.recreateRingBuffer c6State 2048).buffers c6State.nextBufferHandle
      = some { buffer := c6State.ringBuffer, ringBufferAlloc := false, offset := 0
             , size := c6State.ringBufSize, type := GLRenderer.BufferType.Everything } ∧
    (GLRenderer.recreateRingBuffer c6State 2048).ringBufPtr = 0 ∧
    (GLRenderer.recreateRingBuffer c6State 2048).ringBufSize = 2048 ∧
    (GLRenderer.recreateRingBuffer c6State 2048).glDeletedBuffers
      = c6State.glDeletedBuffers ∧
    (∀ k, k ≠ c6State.nextBufferHandle →
      assocFind (GLRenderer.recreateRingBuffer c6State 2048).buffers k
        = assocFind c6State.buffers k) ∧
    (∃ s3, GLRenderer.waitForFrame (GLRenderer.recreateRingBuffer c6State 2048)
        c6State.currentFrameIdx GLRenderer.WaitResult.alreadySignaled
        = Except.ok (true, s3) ∧ c6State.ringBuffer ∈ s3.glDeletedBuffers)) :=
  ⟨by decide, by decide, by decide,
   C7_recreateRingBuffer c6State 2048 (by decide) (by decide) (by decide)⟩

/-- C8: `createPipeline` deduplicates by structural equality of the full
description including the backend render pass of the targeted graph pass
(written into the description before the linear cache scan): a second call
with an equal description for the same pass returns the handle of the first
and leaves the cache — including the backend's fresh-pipeline counter —
completely unchanged, so no new backend pipeline is created. -/
theorem C8_createPipeline_dedup (c : PipelineCache.Cache) (rp : Nat)
    (desc : PipelineCache.PipelineDesc) :
    (PipelineCache.createPipeline
        (PipelineCache.createPipeline c rp desc).2 rp desc).1
      = (PipelineCache.createPipeline c rp desc).1 ∧
    (PipelineCache.createPipeline
        (PipelineCache.createPipeline c rp desc).2 rp desc).2
      = (PipelineCache.createPipeline c rp desc).2 := by
  simp only [PipelineCache.createPipeline]
  cases hfind : PipelineCache.findPipeline c.pipelines
      { desc with renderPass := c.renderPassHandles rp } with
  | some h =>
    simp [hfind]
  | none =>
    simp only [hfind]
    have hfind2 : PipelineCache.findPipeline
        (c.pipelines ++ [({ desc with renderPass := c.renderPassHandles rp },
                          c.nextBackendPipeline)])
        { desc with renderPass := c.renderPassHandles rp }
        = some c.nextBackendPipeline :=
      PipelineCache.findPipeline_append_self _ _ _ hfind
    simp [hfind2]

/-- C9: `bindDescriptorSet` issues no backend binding call: it only sets the
dirty flag and writes the pending map, at keys whose set component is the
given set index (every other key's entry is untouched, and the i-th layout
entry lands at key (set index, i)).  The first `draw` with the dirty flag
set flushes the whole pending batch `rebindBatch` in one append and clears
the flag; a `draw` with a clean flag issues no binding call at all. -/
theorem C9_descriptor_binding (st : GLDescriptors.GLState) (index : Nat)
    (data : List GLDescriptors.Descriptor) :
    ((GLDescriptors.bindDescriptorSet st index data).bindLog = st.bindLog) ∧
    ((GLDescriptors.bindDescriptorSet st index data).decriptorSetsDirty = true) ∧
    (∀ k : GLDescriptors.DSIndex, k.set ≠ index →
      assocFind (GLDescriptors.bindDescriptorSet st index data).descriptors k
        = assocFind st.descriptors k) ∧
    (∀ (i : Nat) (d : GLDescriptors.Descriptor), data.get? i = some d →
      assocFind (GLDescriptors.bindDescriptorSet st index data).descriptors ⟨index, i⟩
        = some d) ∧
    (st.decriptorSetsDirty = true →
      GLDescriptors.draw st
        = { st with bindLog := st.bindLog ++ GLDescriptors.rebindBatch st
                  , decriptorSetsDirty := false
                  , drawCalls := st.drawCalls + 1 }) ∧
    (st.decriptorSetsDirty = false →
      GLDescriptors.draw st = { st with drawCalls := st.drawCalls + 1 }) := by
  refine ⟨rfl, rfl, ?_, ?_, ?_, ?_⟩
  · intro k h
    exact GLDescriptors.writeDescriptors_find_ne index data 0 st.descriptors k h
  · intro i d hget
    have := GLDescriptors.writeDescriptors_find_at index data 0 st.descriptors i d hget
    simpa using this
  · intro h
    simp [GLDescriptors.draw, h]
  · intro h
    simp [GLDescriptors.draw, h]

/-- Witness for C9 at the concrete state `c9State`, set index 0, one
descriptor. -/
theorem C9_descriptor_binding_witness :
    ((GLDescriptors.bindDescriptorSet c9State 0
        [GLDescriptors.Descriptor.bufferHandle 1]).bindLog = c9State.bindLog) ∧
    ((GLDescriptors.bindDescriptorSet c9State 0
        [GLDescriptors.Descriptor.bufferHandle 1]).decriptorSetsDirty = true) ∧
    (∀ k : GLDescriptors.DSIndex, k.set ≠ 0 →
      assocFind (GLDescriptors.bindDescriptorSet c9State 0
          [GLDescriptors.Descriptor.bufferHandle 1]).descriptors k
        = assocFind c9State.descriptors k) ∧
    (∀ (i : Nat) (d : GLDescriptors.Descriptor),
      [GLDescriptors.Descriptor.bufferHandle 1].get? i = some d →
      assocFind (GLDescriptors.bindDescriptorSet c9State 0
          [GLDescriptors.Descriptor.bufferHandle 1]).descriptors ⟨0, i⟩ = some d) ∧
    (c9State.decriptorSetsDirty = true →
      GLDescriptors.draw c9State
        = { c9State with bindLog := c9State.bindLog ++ GLDescriptors.rebindBatch c9State
                       , decriptorSetsDirty := false
                       , drawCalls := c9State.drawCalls + 1 }) ∧
    (c9State.decriptorSetsDirty = false →
      GLDescriptors.draw c9State = { c9State with drawCalls := c9State.drawCalls + 1 }) :=
  C9_descriptor_binding c9State 0 [GLDescriptors.Descriptor.bufferHandle 1]

/-- C10: every ephemeral allocation offset handed out by
`createEphemeralBuffer` is a multiple of 256: the constant 8 enters as the
shift exponent in `(1 << align) - 1`, so the rounding mask is 255 and the
effective alignment is 256 (the ring size being a multiple of 256, as the
code's own post-wrap assertion `(ringBufPtr & ~mask) == 0` presumes). -/
theorem C10_offset_multiple_of_256 (s : NullRenderer.RingState) (size : Nat)
    (hdvd : 256 ∣ s.ringBufSize) :
    256 ∣ (NullRenderer.createEphemeralBuffer s size).1 := by
  simp only [NullRenderer.createEphemeralBuffer]
  split
  · exact (Nat.dvd_mod_iff hdvd).mpr (NullRenderer.alignPtr_dvd _)
  · exact (Nat.dvd_mod_iff hdvd).mpr (NullRenderer.alignPtr_dvd _)

/-- Witness for C10 at ring size 1024, cursor 37, allocation size 100. -/
theorem C10_offset_multiple_of_256_witness :
    (256 ∣ (1024:Nat)) ∧ 256 ∣ (NullRenderer.createEphemeralBuffer ⟨1024, 37⟩ 100).1 :=
  ⟨by decide, C10_offset_multiple_of_256 ⟨1024, 37⟩ 100 (by decide)⟩
